import Mathlib

/-!
Shallow embedding of the Moshrif attendance backend
(`02_Backend_API/main.py`, `02_Backend_API/database_handler.py`,
schema from `03_Database/create_tables.py`).

The SQLite store is modelled as lists of rows in insertion order
(`fetchone` on an unordered query returns the first row in table scan
order, which is insertion order for these tables).  A SQL `TEXT`
timestamp `"YYYY-MM-DD HH:MM:SS"` is modelled as its `date(timestamp)`
component (a string) together with its time-of-day component (`Tod`),
which is exactly the information the queries use.  Schedule
`start_time`/`end_time` columns are `TEXT` of the form `"HH:MM"`
(zero-padded, see `03_Database/fill_data.py`); SQLite compares `TEXT`
bytewise, which `strLe` reproduces.  All `datetime.now()` calls made
while serving one request are modelled as a single `Instant` argument.
-/

namespace Moshrif

/-- Time of day with seconds, the time component of a Python `datetime`. -/
structure Tod where
  h : Nat
  m : Nat
  s : Nat
deriving Repr, DecidableEq

/-- Zero padding used by `strftime` for two-digit fields. -/
def pad2 (n : Nat) : String :=
  if n < 10 then "0" ++ toString n else toString n

/-- Rendering of `now.strftime("%H:%M")` (`main.py` line 198): the seconds are dropped. -/
def hhmm (t : Tod) : String :=
  pad2 t.h ++ ":" ++ pad2 t.m

/-- Bytewise lexicographic order on character lists, as SQLite compares TEXT. -/
def chLe : List Char → List Char → Bool
  | [], _ => true
  | _ :: _, [] => false
  | a :: as, b :: bs =>
    if a.toNat < b.toNat then true
    else if a.toNat == b.toNat then chLe as bs
    else false

/-- SQLite TEXT comparison `x <= y` (bytewise), used by `BETWEEN`. -/
def strLe (a b : String) : Bool :=
  chLe a.data b.data

/-- Row of the `students` table: `student_id TEXT PRIMARY KEY, name TEXT NOT NULL, email TEXT`. -/
structure Student where
  student_id : String
  name : String
  email : Option String
deriving Repr, DecidableEq

/-- Row of the `courses` table. -/
structure Course where
  course_code : String
  course_name : String
  instructor : String
  password : String
deriving Repr, DecidableEq

/-- Row of the `lecture_schedule` table; `start_time`/`end_time` are `"HH:MM"` TEXT. -/
structure ScheduleWindow where
  id : Nat
  course_code : String
  room_number : String
  day_of_week : String
  start_time : String
  end_time : String
deriving Repr, DecidableEq

/-- Row of the `registrations` table. -/
structure Registration where
  id : Nat
  student_id : String
  course_code : String
deriving Repr, DecidableEq

/-- Row of the `attendance_log` table; the TEXT timestamp is split into its
`date(timestamp)` part and its time-of-day part. -/
structure AttendanceRecord where
  id : Nat
  student_id : String
  course_code : String
  date : String
  time : Tod
  status : String
  method : String
deriving Repr, DecidableEq

/-- The SQLite database `attendance.db`, tables in insertion order. -/
structure DB where
  students : List Student
  courses : List Course
  schedule : List ScheduleWindow
  registrations : List Registration
  attendance_log : List AttendanceRecord
deriving Repr, DecidableEq

/-- One value of `datetime.now()`: the `strftime` projections the code uses,
namely `"%Y-%m-%d"` (`date`), `"%A"` (`dayOfWeek`) and the time of day. -/
structure Instant where
  date : String
  dayOfWeek : String
  tod : Tod
deriving Repr, DecidableEq

/-- Fresh `AUTOINCREMENT` id for a new `attendance_log` row. -/
def nextLogId (l : List AttendanceRecord) : Nat :=
  l.foldl (fun acc r => max acc (r.id + 1)) 1

/-- The WHERE clause shared by the duplicate check, the manual existence check
and the manual delete:
`student_id = ? AND course_code = ? AND date(timestamp) = ?`. -/
def attendanceKey (sid cc d : String) (a : AttendanceRecord) : Bool :=
  a.student_id == sid && a.course_code == cc && a.date == d

/-- Number of stored attendance rows for one (student, course, calendar day). -/
def countRecords (db : DB) (sid cc d : String) : Nat :=
  (db.attendance_log.filter (attendanceKey sid cc d)).length

/-- Model of `get_current_course` (`main.py` lines 191-202): first row of
`SELECT s.course_code, c.course_name FROM lecture_schedule s JOIN courses c
ON s.course_code = c.course_code WHERE s.room_number = ? AND s.day_of_week = ?
AND ? BETWEEN s.start_time AND s.end_time`, where the bound time is
`now.strftime("%H:%M")`.  Returns `(course_code, course_name)` or `none`. -/
def get_current_course (db : DB) (room_number : String) (now : Instant) :
    Option (String × String) :=
  let time := hhmm now.tod
  db.schedule.findSome? fun s =>
    if s.room_number == room_number && s.day_of_week == now.dayOfWeek
        && strLe s.start_time time && strLe time s.end_time then
      (db.courses.find? fun c => c.course_code == s.course_code).map
        fun c => (s.course_code, c.course_name)
    else none

/-- The dict returned by `DatabaseHandler.mark_attendance` and by the
`/api/attendance/mark` endpoint.  `email`/`student_name` are `none` when the
dict has no such key; `email = some v` models key `"email"` bound to `v`
(`v = none` models SQL NULL, Python `None`). -/
structure MarkOutcome where
  status : String
  message : String
  email : Option (Option String) := none
  student_name : Option String := none
deriving Repr, DecidableEq

namespace DatabaseHandler

/-- Model of `DatabaseHandler.mark_attendance` (`database_handler.py` lines 21-78),
the failure-free path: student lookup, registration check, same-day duplicate
check, then insert of `(student, course, now, 'Present', 'Camera')`.
Returns the response dict and the resulting store. -/
def mark_attendance (db : DB) (student_id course_code : String) (now : Instant) :
    MarkOutcome × DB :=
  match db.students.find? fun s => s.student_id == student_id with
  | none => ({ status := "error", message := "Student ID not found" }, db)
  | some student =>
    match db.registrations.find? fun r =>
        r.student_id == student_id && r.course_code == course_code with
    | none =>
      ({ status := "error", message := "Not Registered for " ++ course_code }, db)
    | some _ =>
      match db.attendance_log.find? (attendanceKey student_id course_code now.date) with
      | some _ =>
        ({ status := "warning", message := "Already marked: " ++ student.name }, db)
      | none =>
        let row : AttendanceRecord :=
          { id := nextLogId db.attendance_log, student_id := student_id,
            course_code := course_code, date := now.date, time := now.tod,
            status := "Present", method := "Camera" }
        ({ status := "success", message := "Welcome " ++ student.name,
           email := some student.email, student_name := some student.name },
         { db with attendance_log := db.attendance_log ++ [row] })

/-- Model of `DatabaseHandler.mark_attendance` with its `except sqlite3.Error` branch
(`database_handler.py` lines 80-82): `fail = some e` means the store raised an
error with message `e`; the handler logs it and returns the generic
`"Internal Database Error"` dict.  The `with` connection context rolls the
transaction back, so the store is unchanged. -/
def mark_attendanceE (db : DB) (student_id course_code : String) (now : Instant)
    (fail : Option String) : MarkOutcome × DB :=
  match fail with
  | some _ => ({ status := "error", message := "Internal Database Error" }, db)
  | none => mark_attendance db student_id course_code now

end DatabaseHandler

namespace Main

/-- The `/api/attendance/mark` endpoint body (`main.py` lines 232-242),
failure-free path: schedule resolution first, then the handler. -/
def mark_attendance (db : DB) (student_id room_number : String) (now : Instant) :
    MarkOutcome × DB :=
  match get_current_course db room_number now with
  | none =>
    ({ status := "error", message := "No active lecture found at this time!" }, db)
  | some (code, _) => DatabaseHandler.mark_attendance db student_id code now

/-- The `/api/attendance/mark` endpoint with the handler store-failure branch. -/
def mark_attendanceE (db : DB) (student_id room_number : String) (now : Instant)
    (fail : Option String) : MarkOutcome × DB :=
  match get_current_course db room_number now with
  | none =>
    ({ status := "error", message := "No active lecture found at this time!" }, db)
  | some (code, _) => DatabaseHandler.mark_attendanceE db student_id code now fail

/-- The dict returned by `/api/attendance/manual`: `{"status": "success"}` on
success (no `"message"` key, modelled as `none`) and
`{"status": "error", "message": str(e)}` on an exception. -/
structure ManualOutcome where
  status : String
  message : Option String := none
deriving Repr, DecidableEq

/-- Model of `manual_update` (`main.py` lines 370-394), failure-free path.
`target_date` defaults to today; the recorded timestamp is `now` when the
target date is today and `"{target_date} 09:00:00"` otherwise.  Status
`"Present"` inserts `(student, course, timestamp, 'Present', 'Manual')` only
when no row exists for (student, course, target date); any other status
deletes every row for that key.  Both paths return `{"status": "success"}`. -/
def manual_update (db : DB) (student_id course_code status : String)
    (date : Option String) (now : Instant) : ManualOutcome × DB :=
  let target_date := date.getD now.date
  let is_today := target_date == now.date
  let ts_time : Tod := if is_today then now.tod else ⟨9, 0, 0⟩
  if status == "Present" then
    match db.attendance_log.find? (attendanceKey student_id course_code target_date) with
    | some _ => ({ status := "success" }, db)
    | none =>
      let row : AttendanceRecord :=
        { id := nextLogId db.attendance_log, student_id := student_id,
          course_code := course_code, date := target_date, time := ts_time,
          status := "Present", method := "Manual" }
      ({ status := "success" },
       { db with attendance_log := db.attendance_log ++ [row] })
  else
    ({ status := "success" },
     { db with attendance_log :=
         db.attendance_log.filter fun a =>
           !(attendanceKey student_id course_code target_date a) })

/-- Model of `manual_update` with its `except Exception as e` branch (`main.py`
line 393): `fail = some e` means the store raised an exception whose string
form is `e`; the endpoint returns `{"status": "error", "message": str(e)}`.
`conn.commit()` is never reached, so closing the connection rolls back and the
store is unchanged. -/
def manual_updateE (db : DB) (student_id course_code status : String)
    (date : Option String) (now : Instant) (fail : Option String) :
    ManualOutcome × DB :=
  match fail with
  | some e => ({ status := "error", message := some e }, db)
  | none => manual_update db student_id course_code status date now

/-- Python truthiness of the optional email string (`if not to_email`). -/
def emailTruthy : Option String → Bool
  | none => false
  | some e => e != ""

/-- Does the needle match at the head of the haystack? -/
def seqStartsWith : List Char → List Char → Bool
  | [], _ => true
  | _ :: _, [] => false
  | n :: ns, c :: cs => (n == c) && seqStartsWith ns cs

/-- Does the needle occur as a contiguous subsequence of the haystack? -/
def seqOccurs (needle : List Char) : List Char → Bool
  | [] => needle.isEmpty
  | c :: cs => seqStartsWith needle (c :: cs) || seqOccurs needle cs

/-- Python `"uni.edu" in e`: substring containment over the characters. -/
def containsUniEdu (e : String) : Bool :=
  seqOccurs "uni.edu".data e.data

/-- Result of one `send_email_notification` run: whether an SMTP send was
attempted, and the error log line written if delivery failed. -/
structure NotifyResult where
  sent : Bool
  log : Option String := none
deriving Repr, DecidableEq

/-- Model of `send_email_notification` (`main.py` lines 106-186).  Returns without
sending when the address is falsy or contains `"uni.edu"`.  Delivery is
modelled by the oracle `delivery_fails`; the whole body is wrapped in
`try/except`, so a failure only produces the error log line and the function
always returns normally. -/
def send_email_notification (to_email : Option String) (delivery_fails : Bool) :
    NotifyResult :=
  if !(emailTruthy to_email) || containsUniEdu (to_email.getD "") then
    { sent := false }
  else if delivery_fails then
    { sent := true, log := some "Failed to send email" }
  else
    { sent := true }

/-- The `/api/attendance/mark` endpoint together with its background
notification task (`main.py` lines 232-242): the outcome and new store are
computed first; a notification runs afterwards only when the outcome is
`success` and carries a truthy email. -/
def handle_mark_request (db : DB) (student_id room_number : String)
    (now : Instant) (delivery_fails : Bool) : MarkOutcome × DB × NotifyResult :=
  let r := mark_attendance db student_id room_number now
  let notify :=
    if r.fst.status == "success" && emailTruthy (r.fst.email.getD none) then
      send_email_notification (r.fst.email.getD none) delivery_fails
    else
      { sent := false }
  (r.fst, r.snd, notify)

end Main

/-- Model of the `except sqlite3.Error` branch of `DatabaseHandler.mark_attendance`
(`database_handler.py` lines 80-82) including its logging:
`logger.error` writes a line carrying the failure text, the generic
`"Internal Database Error"` dict is returned, and the rolled-back store is
unchanged.  The third component is the log line the branch writes. -/
def DatabaseHandler.mark_attendance_failure (db : DB) (e : String) :
    MarkOutcome × DB × Option String :=
  ({ status := "error", message := "Internal Database Error" }, db,
   some ("Database Error: " ++ e))

/-- Model of the `except Exception as e` branch of `manual_update` (`main.py`
line 393) including its logging: the branch contains no logging call, returns
`{"status": "error", "message": str(e)}`, and the store rolls back unchanged.
The third component is the log line the branch writes: there is none. -/
def Main.manual_update_failure (db : DB) (e : String) :
    Main.ManualOutcome × DB × Option String :=
  ({ status := "error", message := some e }, db, none)

/-! Concrete sample data used by counterexamples and witnesses. -/

/-- A store with one student, one course, one schedule window and one
registration, and an empty attendance log. -/
def sampleDb : DB :=
  { students := [⟨"1", "Islam Mohamed", some "em8756070@gmail.com"⟩],
    courses := [⟨"CS101", "Intro to AI", "Dr. Smith", "h"⟩],
    schedule := [⟨1, "CS101", "Hall_1", "Monday", "09:00", "10:00"⟩],
    registrations := [⟨1, "1", "CS101"⟩],
    attendance_log := [] }

/-- A Monday instant inside the sample schedule window. -/
def sampleNow : Instant := ⟨"2024-01-01", "Monday", ⟨9, 15, 0⟩⟩

/-- A later instant of the same calendar day, still inside the window. -/
def sampleNow2 : Instant := ⟨"2024-01-01", "Monday", ⟨9, 30, 0⟩⟩

/-- The sample store after one successful camera mark on the sample day. -/
def sampleMarkedDb : DB := (Main.mark_attendance sampleDb "1" "Hall_1" sampleNow).snd

/-- A completely empty store. -/
def emptyDb : DB :=
  { students := [], courses := [], schedule := [], registrations := [],
    attendance_log := [] }

/-! Helper lemmas about list search and filtering. -/

theorem find?_append_left_none {α : Type} (p : α → Bool) (l₁ l₂ : List α)
    (h : l₁.find? p = none) : (l₁ ++ l₂).find? p = l₂.find? p := by
  rw [List.find?_append, h, Option.none_or]

theorem filter_eq_nil_of_find?_none {α : Type} {p : α → Bool} {l : List α}
    (h : l.find? p = none) : l.filter p = [] := by
  rw [List.filter_eq_nil_iff]
  exact fun a ha => List.find?_eq_none.mp h a ha

theorem filter_after_filter_not {α : Type} (p : α → Bool) (l : List α) :
    (l.filter fun a => !(p a)).filter p = [] := by
  rw [List.filter_filter]
  simp

theorem filter_not_eq_self_of_none {α : Type} {p : α → Bool} {l : List α}
    (h : ∀ a ∈ l, ¬ p a) : (l.filter fun a => !(p a)) = l := by
  rw [List.filter_eq_self]
  intro a ha
  simp [h a ha]

/-! Claim theorems. -/

/-- C4 (counterexample): the claim says an instant at exactly 10:00:01 does
not match a 09:00-10:00 window, but `get_current_course` binds
`now.strftime("%H:%M")`, so 10:00:01 is compared as `"10:00"` and the window
(room `Hall_1`, day `Monday`, bounds `"09:00"`/`"10:00"` in `sampleDb`) is
resolved. -/
theorem schedule_boundary_counterexample :
    get_current_course sampleDb "Hall_1" ⟨"2024-01-01", "Monday", ⟨10, 0, 1⟩⟩
      = some ("CS101", "Intro to AI") := by decide

/-- C4 (amended): schedule resolution is inclusive at both bounds but works at
minute granularity, because the current time is formatted with
`strftime("%H:%M")` before the SQL `BETWEEN` comparison.  For the 09:00-10:00
`Hall_1` Monday window of `sampleDb`: 09:00:00 and 10:00:00 match, 08:59:59
does not match, 10:00:59 still matches (its minute truncation is `"10:00"`),
and 10:01:00 no longer matches. -/
theorem schedule_boundary_minute_granularity :
    get_current_course sampleDb "Hall_1" ⟨"2024-01-01", "Monday", ⟨9, 0, 0⟩⟩
        = some ("CS101", "Intro to AI") ∧
    get_current_course sampleDb "Hall_1" ⟨"2024-01-01", "Monday", ⟨10, 0, 0⟩⟩
        = some ("CS101", "Intro to AI") ∧
    get_current_course sampleDb "Hall_1" ⟨"2024-01-01", "Monday", ⟨8, 59, 59⟩⟩
        = none ∧
    get_current_course sampleDb "Hall_1" ⟨"2024-01-01", "Monday", ⟨10, 0, 59⟩⟩
        = some ("CS101", "Intro to AI") ∧
    get_current_course sampleDb "Hall_1" ⟨"2024-01-01", "Monday", ⟨10, 1, 0⟩⟩
        = none := by decide

/-- C9 (counterexample): a store failure in the Reconciliation path
(`manual_update`) is surfaced as `str(e)` itself, not as a generic
internal-error message: two different internal failure strings produce two
different caller-visible outcomes, so internal detail leaks. -/
theorem store_failure_message_counterexample :
    (Main.manual_updateE sampleDb "1" "CS101" "Present" none sampleNow
        (some "no such table: attendance_log")).fst.message
      = some "no such table: attendance_log" ∧
    (Main.manual_updateE sampleDb "1" "CS101" "Present" none sampleNow
        (some "no such table: attendance_log")).fst
      ≠ (Main.manual_updateE sampleDb "1" "CS101" "Present" none sampleNow
        (some "database is locked")).fst := by decide

/-- C9 (amended): every store failure is caught at its boundary and turned
into a status-`"error"` outcome with the store unchanged, but the two paths
differ beyond that.  The Recorder path (`DatabaseHandler.mark_attendance`)
writes a log line for the failure and surfaces the generic
`"Internal Database Error"` message, identical whatever the internal failure
was.  The Reconciliation path (`manual_update`) writes no log line at all and
surfaces the exception text verbatim, leaking internal detail.  The failure
branches agree with the oracle variants `mark_attendanceE` and
`manual_updateE` used elsewhere. -/
theorem store_failure_surfacing (db db2 : DB) (sid cc st : String)
    (d : Option String) (now now2 : Instant) (e e2 : String) :
    (DatabaseHandler.mark_attendance_failure db e).fst.status = "error" ∧
    (DatabaseHandler.mark_attendance_failure db e).fst.message
      = "Internal Database Error" ∧
    (DatabaseHandler.mark_attendance_failure db e).fst
      = (DatabaseHandler.mark_attendance_failure db e2).fst ∧
    (DatabaseHandler.mark_attendance_failure db e).snd.fst = db ∧
    (DatabaseHandler.mark_attendance_failure db e).snd.snd
      = some ("Database Error: " ++ e) ∧
    (DatabaseHandler.mark_attendance_failure db e).fst
      = (DatabaseHandler.mark_attendanceE db sid cc now (some e)).fst ∧
    (DatabaseHandler.mark_attendance_failure db e).snd.fst
      = (DatabaseHandler.mark_attendanceE db sid cc now (some e)).snd ∧
    (Main.manual_update_failure db2 e).fst.status = "error" ∧
    (Main.manual_update_failure db2 e).fst.message = some e ∧
    (Main.manual_update_failure db2 e).snd.fst = db2 ∧
    (Main.manual_update_failure db2 e).snd.snd = none ∧
    (Main.manual_update_failure db2 e).fst
      = (Main.manual_updateE db2 sid cc st d now2 (some e)).fst ∧
    (Main.manual_update_failure db2 e).snd.fst
      = (Main.manual_updateE db2 sid cc st d now2 (some e)).snd :=
  ⟨rfl, rfl, rfl, rfl, rfl, rfl, rfl, rfl, rfl, rfl, rfl, rfl, rfl⟩

/-- C5 (counterexample): in a store where the sample student is already
marked today, a second call of the mark endpoint returns a dict whose status
discriminator is `"warning"`, which is not in the claimed set
`{success, already_marked, not_registered, not_found, no_active_lecture,
error}`. -/
theorem outcome_status_counterexample :
    (Main.mark_attendance sampleMarkedDb "1" "Hall_1" sampleNow2).fst.status
      = "warning" ∧
    (Main.mark_attendance sampleMarkedDb "1" "Hall_1" sampleNow2).fst.status
      ∉ (["success", "already_marked", "not_registered", "not_found",
          "no_active_lecture", "error"] : List String) := by decide

/-- C5 (amended): every outcome of the mark endpoint (store failures
included) carries a status discriminator drawn from
`{success, warning, error}` (`warning` is the already-marked case; not-found,
not-registered, no-active-lecture and store failure all surface as `error`),
a nonempty display message, and on success the email and student-name fields;
the course name and timestamp used for notification are supplied by the
endpoint layer, not by the outcome dict. -/
theorem outcome_status_vocabulary (db : DB) (sid room : String) (now : Instant)
    (fail : Option String) :
    ((Main.mark_attendanceE db sid room now fail).fst.status = "success" ∨
     (Main.mark_attendanceE db sid room now fail).fst.status = "warning" ∨
     (Main.mark_attendanceE db sid room now fail).fst.status = "error") ∧
    (Main.mark_attendanceE db sid room now fail).fst.message ≠ "" ∧
    ((Main.mark_attendanceE db sid room now fail).fst.status = "success" →
      ∃ em nm, (Main.mark_attendanceE db sid room now fail).fst.email = some em ∧
        (Main.mark_attendanceE db sid room now fail).fst.student_name = some nm) := by
  have hne : ∀ (a b : String), a.length ≠ 0 → a ++ b ≠ "" := by
    intro a b ha h
    have hl := congrArg String.length h
    rw [String.length_append] at hl
    simp at hl
    exact ha hl.1
  unfold Main.mark_attendanceE
  split
  · refine ⟨Or.inr (Or.inr rfl), ?_, ?_⟩
    · show "No active lecture found at this time!" ≠ ""
      decide
    · intro h
      simp at h
  · unfold DatabaseHandler.mark_attendanceE
    split
    · refine ⟨Or.inr (Or.inr rfl), ?_, ?_⟩
      · show "Internal Database Error" ≠ ""
        decide
      · intro h
        simp at h
    · unfold DatabaseHandler.mark_attendance
      split
      · refine ⟨Or.inr (Or.inr rfl), ?_, ?_⟩
        · show "Student ID not found" ≠ ""
          decide
        · intro h
          simp at h
      · split
        · refine ⟨Or.inr (Or.inr rfl), ?_, ?_⟩
          · exact hne "Not Registered for " _ (by decide)
          · intro h
            simp at h
        · split
          · refine ⟨Or.inr (Or.inl rfl), ?_, ?_⟩
            · exact hne "Already marked: " _ (by decide)
            · intro h
              simp at h
          · refine ⟨Or.inl rfl, ?_, ?_⟩
            · exact hne "Welcome " _ (by decide)
            · exact fun _ => ⟨_, _, rfl, rfl⟩

/-- C5 (witness for the success hypothesis of the amended theorem): on the
sample store the endpoint outcome is `success` and carries email and student
name. -/
theorem outcome_status_vocabulary_witness :
    (Main.mark_attendanceE sampleDb "1" "Hall_1" sampleNow none).fst.status
      = "success" ∧
    ∃ em nm,
      (Main.mark_attendanceE sampleDb "1" "Hall_1" sampleNow none).fst.email
        = some em ∧
      (Main.mark_attendanceE sampleDb "1" "Hall_1" sampleNow none).fst.student_name
        = some nm :=
  ⟨by decide,
   (outcome_status_vocabulary sampleDb "1" "Hall_1" sampleNow none).2.2 (by decide)⟩

/-- C3: a successful call of the mark endpoint appends exactly one attendance
row, with status `Present` and method `Camera`, and touches no other table;
every non-success outcome (no active lecture, unknown student, missing
registration, already marked, store failure) leaves the store exactly as it
was. -/
theorem mark_attendance_frame (db : DB) (sid room : String) (now : Instant)
    (fail : Option String) :
    ((Main.mark_attendanceE db sid room now fail).fst.status = "success" →
      (Main.mark_attendanceE db sid room now fail).snd.students = db.students ∧
      (Main.mark_attendanceE db sid room now fail).snd.courses = db.courses ∧
      (Main.mark_attendanceE db sid room now fail).snd.schedule = db.schedule ∧
      (Main.mark_attendanceE db sid room now fail).snd.registrations
        = db.registrations ∧
      ∃ r, (Main.mark_attendanceE db sid room now fail).snd.attendance_log
          = db.attendance_log ++ [r] ∧ r.status = "Present" ∧ r.method = "Camera") ∧
    ((Main.mark_attendanceE db sid room now fail).fst.status ≠ "success" →
      (Main.mark_attendanceE db sid room now fail).snd = db) := by
  unfold Main.mark_attendanceE
  split
  · exact ⟨fun h => by simp at h, fun _ => rfl⟩
  · unfold DatabaseHandler.mark_attendanceE
    split
    · exact ⟨fun h => by simp at h, fun _ => rfl⟩
    · unfold DatabaseHandler.mark_attendance
      split
      · exact ⟨fun h => by simp at h, fun _ => rfl⟩
      · split
        · exact ⟨fun h => by simp at h, fun _ => rfl⟩
        · split
          · exact ⟨fun h => by simp at h, fun _ => rfl⟩
          · exact ⟨fun _ => ⟨rfl, rfl, rfl, rfl, _, rfl, rfl, rfl⟩,
              fun h => absurd rfl h⟩

/-- C3 (witness): on the sample store the endpoint call succeeds and appends
exactly one `Present`/`Camera` row. -/
theorem mark_attendance_frame_witness :
    (Main.mark_attendanceE sampleDb "1" "Hall_1" sampleNow none).fst.status
      = "success" ∧
    (Main.mark_attendanceE sampleDb "1" "Hall_1" sampleNow none).snd.registrations
      = sampleDb.registrations ∧
    ∃ r, (Main.mark_attendanceE sampleDb "1" "Hall_1" sampleNow none).snd.attendance_log
        = sampleDb.attendance_log ++ [r] ∧ r.status = "Present" ∧ r.method = "Camera" :=
  ⟨by decide,
   ((mark_attendance_frame sampleDb "1" "Hall_1" sampleNow none).1 (by decide)).2.2.2.1,
   ((mark_attendance_frame sampleDb "1" "Hall_1" sampleNow none).1 (by decide)).2.2.2.2⟩

/-- C2: the mark endpoint decides in short-circuiting order.  If no schedule
window covers (room, now) the outcome is the no-active-lecture error, with no
record written, regardless of the student or registration tables.  Otherwise,
an unknown student id gives the not-found error; otherwise a missing
(student, course) registration gives the not-registered error; otherwise an
existing same-day record gives the already-marked (`"warning"`) outcome; and
otherwise one `Present`/`Camera` record is inserted and the outcome is
success.  All rejecting branches leave the store unchanged. -/
theorem mark_attendance_decision_order (db : DB) (sid room : String)
    (now : Instant) :
    (get_current_course db room now = none →
      Main.mark_attendance db sid room now
        = ({ status := "error",
             message := "No active lecture found at this time!" }, db)) ∧
    (∀ code cname, get_current_course db room now = some (code, cname) →
      ((∀ s ∈ db.students, s.student_id ≠ sid) →
        Main.mark_attendance db sid room now
          = ({ status := "error", message := "Student ID not found" }, db)) ∧
      (∀ stu, db.students.find? (fun s => s.student_id == sid) = some stu →
        ((∀ r ∈ db.registrations,
            ¬(r.student_id = sid ∧ r.course_code = code)) →
          Main.mark_attendance db sid room now
            = ({ status := "error",
                 message := "Not Registered for " ++ code }, db)) ∧
        ((∃ r ∈ db.registrations, r.student_id = sid ∧ r.course_code = code) →
          ((∃ a ∈ db.attendance_log, attendanceKey sid code now.date a) →
            Main.mark_attendance db sid room now
              = ({ status := "warning",
                   message := "Already marked: " ++ stu.name }, db)) ∧
          ((∀ a ∈ db.attendance_log, ¬ attendanceKey sid code now.date a) →
            Main.mark_attendance db sid room now
              = ({ status := "success", message := "Welcome " ++ stu.name,
                   email := some stu.email, student_name := some stu.name },
                 { db with attendance_log := db.attendance_log ++
                     [⟨nextLogId db.attendance_log, sid, code, now.date,
                       now.tod, "Present", "Camera"⟩] }))))) := by
  constructor
  · intro hc
    simp [Main.mark_attendance, hc]
  · intro code cname hc
    have hmain : Main.mark_attendance db sid room now
        = DatabaseHandler.mark_attendance db sid code now := by
      simp [Main.mark_attendance, hc]
    constructor
    · intro hnone
      have hs : db.students.find? (fun s => s.student_id == sid) = none := by
        rw [List.find?_eq_none]
        intro s hsm
        simpa using hnone s hsm
      rw [hmain]
      simp [DatabaseHandler.mark_attendance, hs]
    · intro stu hstu
      constructor
      · intro hreg
        have hr : db.registrations.find?
            (fun r => r.student_id == sid && r.course_code == code) = none := by
          rw [List.find?_eq_none]
          intro r hrm
          simpa using hreg r hrm
        rw [hmain]
        simp [DatabaseHandler.mark_attendance, hstu, hr]
      · intro hregsome
        obtain ⟨r0, hr0m, hr01, hr02⟩ := hregsome
        cases hr : db.registrations.find?
            (fun r => r.student_id == sid && r.course_code == code) with
        | none =>
          have := List.find?_eq_none.mp hr r0 hr0m
          simp [hr01, hr02] at this
        | some reg =>
          constructor
          · intro hattend
            obtain ⟨a0, ha0m, ha0⟩ := hattend
            cases ha : db.attendance_log.find? (attendanceKey sid code now.date) with
            | none => exact absurd ha0 (List.find?_eq_none.mp ha a0 ha0m)
            | some a =>
              rw [hmain]
              simp [DatabaseHandler.mark_attendance, hstu, hr, ha]
          · intro hnoa
            have ha : db.attendance_log.find? (attendanceKey sid code now.date)
                = none := by
              rw [List.find?_eq_none]
              exact fun a ham => hnoa a ham
            rw [hmain]
            simp [DatabaseHandler.mark_attendance, hstu, hr, ha]

/-- C2 (witness): on the sample store the success branch of the decision
order applies and produces the fully-evaluated success outcome and insert. -/
theorem mark_attendance_decision_order_witness :
    (∀ a ∈ sampleDb.attendance_log, ¬ attendanceKey "1" "CS101" sampleNow.date a) ∧
    Main.mark_attendance sampleDb "1" "Hall_1" sampleNow
      = ({ status := "success", message := "Welcome Islam Mohamed",
           email := some (some "em8756070@gmail.com"),
           student_name := some "Islam Mohamed" },
         { sampleDb with attendance_log :=
             [⟨1, "1", "CS101", "2024-01-01", ⟨9, 15, 0⟩, "Present", "Camera"⟩] }) :=
  ⟨by decide,
   ((((mark_attendance_decision_order sampleDb "1" "Hall_1" sampleNow).2
      "CS101" "Intro to AI" (by decide)).2
      ⟨"1", "Islam Mohamed", some "em8756070@gmail.com"⟩ (by decide)).2
      (by decide)).2 (by decide)⟩

/-- Inversion of a success of `DatabaseHandler.mark_attendance`: the student
lookup and registration lookup hit, and the same-day duplicate check found
nothing. -/
theorem mark_success_inversion (db : DB) (sid cc : String) (now : Instant)
    (h : (DatabaseHandler.mark_attendance db sid cc now).fst.status = "success") :
    ∃ stu, db.students.find? (fun s => s.student_id == sid) = some stu ∧
      (∃ reg, db.registrations.find?
          (fun r => r.student_id == sid && r.course_code == cc) = some reg) ∧
      db.attendance_log.find? (attendanceKey sid cc now.date) = none := by
  unfold DatabaseHandler.mark_attendance at h
  split at h
  · simp at h
  · rename_i stu hs
    split at h
    · simp at h
    · rename_i reg hr
      split at h
      · simp at h
      · rename_i ha
        exact ⟨stu, hs, ⟨reg, hr⟩, ha⟩

/-- C1: for every (student, course) pair and store, if a first
`DatabaseHandler.mark_attendance` call succeeds, then after a second call on
the same calendar day the store holds exactly one attendance record for that
(student, course, day); the second call returns the already-marked outcome
(the unique `"warning"` branch of the handler) and does not change the
store. -/
theorem attendance_mark_idempotent_same_day (db : DB) (sid cc : String)
    (now1 now2 : Instant) (hday : now1.date = now2.date)
    (h1 : (DatabaseHandler.mark_attendance db sid cc now1).fst.status = "success") :
    countRecords (DatabaseHandler.mark_attendance db sid cc now1).snd sid cc
        now2.date = 1 ∧
    (DatabaseHandler.mark_attendance
        (DatabaseHandler.mark_attendance db sid cc now1).snd sid cc now2).fst.status
      = "warning" ∧
    (DatabaseHandler.mark_attendance
        (DatabaseHandler.mark_attendance db sid cc now1).snd sid cc now2).snd
      = (DatabaseHandler.mark_attendance db sid cc now1).snd ∧
    countRecords
      (DatabaseHandler.mark_attendance
        (DatabaseHandler.mark_attendance db sid cc now1).snd sid cc now2).snd
      sid cc now2.date = 1 := by
  obtain ⟨stu, hs, ⟨reg, hr⟩, ha⟩ := mark_success_inversion db sid cc now1 h1
  have hfirst : DatabaseHandler.mark_attendance db sid cc now1
      = ({ status := "success", message := "Welcome " ++ stu.name,
           email := some stu.email, student_name := some stu.name },
         { db with attendance_log := db.attendance_log ++
             [({ id := nextLogId db.attendance_log, student_id := sid,
                 course_code := cc, date := now1.date, time := now1.tod,
                 status := "Present", method := "Camera" } : AttendanceRecord)] }) := by
    simp [DatabaseHandler.mark_attendance, hs, hr, ha]
  have hkey : attendanceKey sid cc now2.date
      ({ id := nextLogId db.attendance_log, student_id := sid,
         course_code := cc, date := now1.date, time := now1.tod,
         status := "Present", method := "Camera" } : AttendanceRecord) = true := by
    simp [attendanceKey, hday]
  have hanew : db.attendance_log.find? (attendanceKey sid cc now2.date) = none := by
    rw [← hday]
    exact ha
  have ha2 : (db.attendance_log ++
      [({ id := nextLogId db.attendance_log, student_id := sid,
          course_code := cc, date := now1.date, time := now1.tod,
          status := "Present", method := "Camera" } : AttendanceRecord)]).find?
        (attendanceKey sid cc now2.date)
      = some ({ id := nextLogId db.attendance_log, student_id := sid,
                course_code := cc, date := now1.date, time := now1.tod,
                status := "Present", method := "Camera" } : AttendanceRecord) := by
    rw [find?_append_left_none _ _ _ hanew, List.find?_cons, hkey]
  have hsecond : DatabaseHandler.mark_attendance
      ({ db with attendance_log := db.attendance_log ++
          [({ id := nextLogId db.attendance_log, student_id := sid,
              course_code := cc, date := now1.date, time := now1.tod,
              status := "Present", method := "Camera" } : AttendanceRecord)] })
      sid cc now2
      = ({ status := "warning", message := "Already marked: " ++ stu.name },
         { db with attendance_log := db.attendance_log ++
             [({ id := nextLogId db.attendance_log, student_id := sid,
                 course_code := cc, date := now1.date, time := now1.tod,
                 status := "Present", method := "Camera" } : AttendanceRecord)] }) := by
    simp [DatabaseHandler.mark_attendance, hs, hr, ha2]
  rw [hfirst, hsecond]
  refine ⟨?_, rfl, rfl, ?_⟩ <;>
  · show (List.filter (attendanceKey sid cc now2.date)
        (db.attendance_log ++
          [({ id := nextLogId db.attendance_log, student_id := sid,
              course_code := cc, date := now1.date, time := now1.tod,
              status := "Present", method := "Camera" } : AttendanceRecord)])).length
      = 1
    rw [List.filter_append, filter_eq_nil_of_find?_none hanew]
    simp [hkey]

/-- C1 (witness): on the sample store, the first call succeeds and the
same-day second call returns the already-marked outcome with exactly one
stored record. -/
theorem attendance_mark_idempotent_same_day_witness :
    sampleNow.date = sampleNow2.date ∧
    (DatabaseHandler.mark_attendance sampleDb "1" "CS101" sampleNow).fst.status
      = "success" ∧
    countRecords (DatabaseHandler.mark_attendance sampleDb "1" "CS101" sampleNow).snd
        "1" "CS101" sampleNow2.date = 1 ∧
    (DatabaseHandler.mark_attendance
        (DatabaseHandler.mark_attendance sampleDb "1" "CS101" sampleNow).snd
        "1" "CS101" sampleNow2).fst.status = "warning" := by
  refine ⟨by decide, by decide, ?_, ?_⟩
  · exact (attendance_mark_idempotent_same_day sampleDb "1" "CS101" sampleNow
      sampleNow2 (by decide) (by decide)).1
  · exact (attendance_mark_idempotent_same_day sampleDb "1" "CS101" sampleNow
      sampleNow2 (by decide) (by decide)).2.1

/-- C6: `manual_update` with status `Present` defaults the target date to the
current date when the date is omitted; when a record for (student, course,
target date) already exists it changes nothing and still returns success;
otherwise it inserts exactly one `Present`/`Manual` row dated at the target
date, stamped with the current time when the target date is today and with
the fixed nominal time 09:00:00 otherwise. -/
theorem manual_present_semantics (db : DB) (sid cc : String) (d : Option String)
    (now : Instant) :
    Main.manual_update db sid cc "Present" none now
      = Main.manual_update db sid cc "Present" (some now.date) now ∧
    ((∃ a ∈ db.attendance_log, attendanceKey sid cc (d.getD now.date) a) →
      Main.manual_update db sid cc "Present" d now = ({ status := "success" }, db)) ∧
    ((∀ a ∈ db.attendance_log, ¬ attendanceKey sid cc (d.getD now.date) a) →
      ∃ row, Main.manual_update db sid cc "Present" d now
          = ({ status := "success" },
             { db with attendance_log := db.attendance_log ++ [row] }) ∧
        row.student_id = sid ∧ row.course_code = cc ∧
        row.date = d.getD now.date ∧
        row.status = "Present" ∧ row.method = "Manual" ∧
        (d.getD now.date = now.date → row.time = now.tod) ∧
        (d.getD now.date ≠ now.date → row.time = ⟨9, 0, 0⟩)) := by
  refine ⟨rfl, ?_, ?_⟩
  · intro hex
    obtain ⟨a0, ha0m, ha0⟩ := hex
    cases hf : db.attendance_log.find? (attendanceKey sid cc (d.getD now.date)) with
    | none => exact absurd ha0 (List.find?_eq_none.mp hf a0 ha0m)
    | some a =>
      simp [Main.manual_update, hf]
  · intro hno
    have hf : db.attendance_log.find? (attendanceKey sid cc (d.getD now.date))
        = none := by
      rw [List.find?_eq_none]
      exact fun a ham => hno a ham
    refine ⟨{ id := nextLogId db.attendance_log, student_id := sid,
              course_code := cc, date := d.getD now.date,
              time := if (d.getD now.date) == now.date then now.tod else ⟨9, 0, 0⟩,
              status := "Present", method := "Manual" },
            ?_, rfl, rfl, rfl, rfl, rfl, ?_, ?_⟩
    · simp [Main.manual_update, hf]
    · intro h
      simp [h]
    · intro h
      simp [beq_eq_false_iff_ne.mpr h]

/-- C6 (witness): on the sample store a backdated manual Present edit inserts
one `Present`/`Manual` row dated 2023-12-25 with the nominal 09:00:00 time. -/
theorem manual_present_semantics_witness :
    (∀ a ∈ sampleDb.attendance_log,
      ¬ attendanceKey "1" "CS101" ((some "2023-12-25").getD sampleNow.date) a) ∧
    ∃ row, Main.manual_update sampleDb "1" "CS101" "Present" (some "2023-12-25")
          sampleNow
        = ({ status := "success" },
           { sampleDb with attendance_log := sampleDb.attendance_log ++ [row] }) ∧
      row.student_id = "1" ∧ row.course_code = "CS101" ∧
      row.date = (some "2023-12-25").getD sampleNow.date ∧
      row.status = "Present" ∧ row.method = "Manual" ∧
      ((some "2023-12-25").getD sampleNow.date = sampleNow.date →
        row.time = sampleNow.tod) ∧
      ((some "2023-12-25").getD sampleNow.date ≠ sampleNow.date →
        row.time = ⟨9, 0, 0⟩) :=
  ⟨by decide,
   (manual_present_semantics sampleDb "1" "CS101" (some "2023-12-25") sampleNow).2.2
     (by decide)⟩

/-- C7: for every store and (student, course, date), a manual Present edit
followed by a manual absent edit of the same date leaves zero attendance
records for that key and returns success; and a manual absent edit applied
when no record exists for the key is a no-op that still returns success. -/
theorem manual_present_absent_roundtrip (db : DB) (sid cc d st : String)
    (now1 now2 : Instant) (hst : st ≠ "Present") :
    (Main.manual_update (Main.manual_update db sid cc "Present" (some d) now1).snd
        sid cc st (some d) now2).fst = { status := "success" } ∧
    countRecords
      (Main.manual_update (Main.manual_update db sid cc "Present" (some d) now1).snd
        sid cc st (some d) now2).snd sid cc d = 0 ∧
    (countRecords db sid cc d = 0 →
      Main.manual_update db sid cc st (some d) now2 = ({ status := "success" }, db)) := by
  have hstb : (st == "Present") = false := by
    simp [hst]
  refine ⟨?_, ?_, ?_⟩
  · simp [Main.manual_update, hstb]
  · show (List.filter (attendanceKey sid cc d) _).length = 0
    simp only [Main.manual_update, hstb, Bool.false_eq_true, if_false]
    rw [List.length_eq_zero]
    exact filter_after_filter_not _ _
  · intro hzero
    have hnil : db.attendance_log.filter (attendanceKey sid cc d) = [] :=
      List.length_eq_zero.mp hzero
    have hall : ∀ a ∈ db.attendance_log, ¬ attendanceKey sid cc d a := by
      rw [← List.filter_eq_nil_iff]
      exact hnil
    have hid : (db.attendance_log.filter fun a => !(attendanceKey sid cc d a))
        = db.attendance_log := filter_not_eq_self_of_none hall
    simp [Main.manual_update, hstb, hid]

/-- C7 (witness): on the sample store, present-then-absent on 2023-12-25
leaves zero records for the key, and an absent edit on the untouched store is
a no-op success. -/
theorem manual_present_absent_roundtrip_witness :
    ("Absent" : String) ≠ "Present" ∧
    (Main.manual_update
      (Main.manual_update sampleDb "1" "CS101" "Present" (some "2023-12-25")
        sampleNow).snd "1" "CS101" "Absent" (some "2023-12-25") sampleNow2).fst
      = { status := "success" } ∧
    countRecords
      (Main.manual_update
        (Main.manual_update sampleDb "1" "CS101" "Present" (some "2023-12-25")
          sampleNow).snd "1" "CS101" "Absent" (some "2023-12-25") sampleNow2).snd
      "1" "CS101" "2023-12-25" = 0 ∧
    (countRecords sampleDb "1" "CS101" "2023-12-25" = 0 ∧
      Main.manual_update sampleDb "1" "CS101" "Absent" (some "2023-12-25") sampleNow2
        = ({ status := "success" }, sampleDb)) := by
  have h := manual_present_absent_roundtrip sampleDb "1" "CS101" "2023-12-25"
    "Absent" sampleNow sampleNow2 (by decide)
  exact ⟨by decide, h.1, h.2.1, by decide, h.2.2 (by decide)⟩

/-- C8: the notification step is decoupled from the attendance outcome.  The
dispatcher performs no send when the address is absent, empty, or contains the
institutional placeholder domain `uni.edu`; and the outcome and store returned
by the mark endpoint are computed before the background task runs, so they are
identical whatever the delivery oracle says — a delivery failure only yields a
log line (`send_email_notification` catches every exception and returns
normally). -/
theorem notification_decoupled (db : DB) (sid room : String) (now : Instant)
    (addr : Option String) (f f' : Bool) :
    ((Main.emailTruthy addr = false ∨ Main.containsUniEdu (addr.getD "") = true) →
      (Main.send_email_notification addr f).sent = false) ∧
    (Main.handle_mark_request db sid room now f).fst
      = (Main.mark_attendance db sid room now).fst ∧
    (Main.handle_mark_request db sid room now f).snd.fst
      = (Main.mark_attendance db sid room now).snd ∧
    (Main.handle_mark_request db sid room now f).fst
      = (Main.handle_mark_request db sid room now f').fst ∧
    (Main.handle_mark_request db sid room now f).snd.fst
      = (Main.handle_mark_request db sid room now f').snd.fst := by
  refine ⟨?_, rfl, rfl, rfl, rfl⟩
  intro h
  cases h with
  | inl h1 => simp [Main.send_email_notification, h1]
  | inr h2 => simp [Main.send_email_notification, h2]

/-- C8 (witness): a placeholder-domain address is skipped even when delivery
would fail, and the endpoint outcome on the sample store is independent of
the delivery oracle. -/
theorem notification_decoupled_witness :
    (Main.emailTruthy (some "student3@uni.edu") = false ∨
      Main.containsUniEdu ((some "student3@uni.edu").getD "") = true) ∧
    (Main.send_email_notification (some "student3@uni.edu") true).sent = false ∧
    (Main.handle_mark_request sampleDb "1" "Hall_1" sampleNow true).fst
      = (Main.handle_mark_request sampleDb "1" "Hall_1" sampleNow false).fst := by
  have h := notification_decoupled sampleDb "1" "Hall_1" sampleNow
    (some "student3@uni.edu") true false
  exact ⟨Or.inr (by decide), h.1 (Or.inr (by decide)), h.2.2.2.1⟩

/-- C10: the manual Present edit checks neither the students nor the
registrations table: for any store and any (student id, course code)
whatsoever — the theorem quantifies over stores whose students and
registrations tables are arbitrary, including ones not containing the id or
the pair — if no attendance record exists for (student, course, target
date), a `Present`/`Manual` row is inserted and success is returned. -/
theorem manual_present_no_eligibility_check (db : DB) (sid cc : String)
    (d : Option String) (now : Instant)
    (h : ∀ a ∈ db.attendance_log, ¬ attendanceKey sid cc (d.getD now.date) a) :
    (Main.manual_update db sid cc "Present" d now).fst = { status := "success" } ∧
    ∃ row, (Main.manual_update db sid cc "Present" d now).snd.attendance_log
        = db.attendance_log ++ [row] ∧
      row.student_id = sid ∧ row.course_code = cc ∧
      row.date = d.getD now.date ∧ row.status = "Present" ∧
      row.method = "Manual" := by
  have hf : db.attendance_log.find? (attendanceKey sid cc (d.getD now.date))
      = none := by
    rw [List.find?_eq_none]
    exact fun a ham => h a ham
  constructor
  · simp [Main.manual_update, hf]
  · refine ⟨{ id := nextLogId db.attendance_log, student_id := sid,
              course_code := cc, date := d.getD now.date,
              time := if (d.getD now.date) == now.date then now.tod else ⟨9, 0, 0⟩,
              status := "Present", method := "Manual" },
            ?_, rfl, rfl, rfl, rfl, rfl⟩
    simp [Main.manual_update, hf]

/-- C10 (witness): on the empty store — no students and no registrations at
all — a manual Present edit for a ghost student still inserts a row and
returns success. -/
theorem manual_present_no_eligibility_check_witness :
    (∀ a ∈ emptyDb.attendance_log,
      ¬ attendanceKey "ghost" "NOPE" ((none : Option String).getD sampleNow.date) a) ∧
    (Main.manual_update emptyDb "ghost" "NOPE" "Present" none sampleNow).fst
      = { status := "success" } ∧
    ∃ row, (Main.manual_update emptyDb "ghost" "NOPE" "Present" none
          sampleNow).snd.attendance_log
        = emptyDb.attendance_log ++ [row] ∧
      row.student_id = "ghost" ∧ row.course_code = "NOPE" ∧
      row.date = (none : Option String).getD sampleNow.date ∧
      row.status = "Present" ∧ row.method = "Manual" := by
  have h := manual_present_no_eligibility_check emptyDb "ghost" "NOPE" none
    sampleNow (by decide)
  exact ⟨by decide, h.1, h.2⟩

end Moshrif
